import Mathlib

/- Verification development for the background-job and pub/sub subsystem of the
   bshongwe/graphql-api repository.  The definitions below are shallow embeddings of
   src/infrastructure/jobQueue.ts, src/infrastructure/jobWorkers.ts,
   src/infrastructure/pubsub.ts, src/infrastructure/jobDashboard.ts,
   src/graphql/resolvers (subscription resolvers) and src/server.ts.
   Definitions marked "Modelled from the spec:" embed behaviour that lives in an
   external library (the BullMQ / Redis broker) rather than in this repository;
   everything else is translated directly from the TypeScript source. -/

namespace GraphqlApi

/- Queue name constants, from JOB_QUEUES in src/infrastructure/jobQueue.ts. -/

namespace JOB_QUEUES

def EMAIL : String := "email-queue"

def USER_PROCESSING : String := "user-processing-queue"

def NOTIFICATIONS : String := "notifications-queue"

def DATA_EXPORT : String := "data-export-queue"

end JOB_QUEUES

/- Job type tag constants, from JOB_TYPES in src/infrastructure/jobQueue.ts. -/

namespace JOB_TYPES

def SEND_WELCOME_EMAIL : String := "send-welcome-email"

def SEND_PASSWORD_RESET : String := "send-password-reset"

def PROCESS_USER_SIGNUP : String := "process-user-signup"

def PROCESS_USER_DELETION : String := "process-user-deletion"

def SEND_NOTIFICATION : String := "send-notification"

def EXPORT_USER_DATA : String := "export-user-data"

def CLEANUP_EXPIRED_TOKENS : String := "cleanup-expired-tokens"

end JOB_TYPES

/- Job data records, from the interfaces in src/infrastructure/jobQueue.ts.
   In the TypeScript source the `type` field is statically restricted to a union of
   literal tags; at runtime it is an arbitrary string and no code checks it, so the
   embedding uses String and records each family's allowed tags separately.
   `Record<string, any>` payload maps are embedded as string association lists. -/

structure EmailJobData where
  type : String
  «to» : String
  subject : String
  template : String
  «variables» : List (String × String)
deriving DecidableEq

structure UserJobData where
  type : String
  userId : String
  email : String
  metadata : List (String × String)
deriving DecidableEq

structure NotificationJobData where
  type : String
  userId : String
  title : String
  message : String
  channel : String
deriving DecidableEq

structure DataExportJobData where
  type : String
  userId : Option String
  format : Option String
  filters : List (String × String)
deriving DecidableEq

/-- Allowed type tags of the email job family (the static union type of
EmailJobData.type in src/infrastructure/jobQueue.ts). -/
def emailAllowedTypes : List String :=
  [JOB_TYPES.SEND_WELCOME_EMAIL, JOB_TYPES.SEND_PASSWORD_RESET]

/-- Allowed type tags of the user-lifecycle job family. -/
def userAllowedTypes : List String :=
  [JOB_TYPES.PROCESS_USER_SIGNUP, JOB_TYPES.PROCESS_USER_DELETION]

/-- Allowed type tags of the notification job family. -/
def notificationAllowedTypes : List String :=
  [JOB_TYPES.SEND_NOTIFICATION]

/-- Allowed type tags of the data-export job family. -/
def dataExportAllowedTypes : List String :=
  [JOB_TYPES.EXPORT_USER_DATA, JOB_TYPES.CLEANUP_EXPIRED_TOKENS]

/- Job options.  Each JobService.add*Job method in src/infrastructure/jobWorkers.ts
   builds an options object of the form
     { delay: options.delay || 0, attempts: options.attempts || N,
       backoff: { type: 'exponential', delay: B },
       removeOnComplete: RC, removeOnFail: RF, ...options }
   The trailing `...options` spread means a caller-supplied key always wins (even a
   falsy value such as 0), and the `|| N` defaults apply exactly when the key is
   absent, so the net merge is "caller key if present, else the family default". -/

structure BackoffOpts where
  type : String
  delay : Nat
deriving DecidableEq

structure JobOptions where
  delay : Option Nat
  attempts : Nat
  backoff : BackoffOpts
  removeOnComplete : Nat
  removeOnFail : Nat
deriving DecidableEq

/-- Caller-supplied overrides (the untyped `options` argument of the add*Job methods);
an absent key is `none`. -/
structure JobOverrides where
  delay : Option Nat := none
  attempts : Option Nat := none
  backoff : Option BackoffOpts := none
  removeOnComplete : Option Nat := none
  removeOnFail : Option Nat := none
deriving DecidableEq

/-- Options built by JobService.addEmailJob (src/infrastructure/jobWorkers.ts
lines 438-448). -/
def emailJobOptions (o : JobOverrides) : JobOptions :=
  { delay := some (o.delay.getD 0)
    attempts := o.attempts.getD 3
    backoff := o.backoff.getD { type := "exponential", delay := 2000 }
    removeOnComplete := o.removeOnComplete.getD 10
    removeOnFail := o.removeOnFail.getD 5 }

/-- Options built by JobService.addUserJob (src/infrastructure/jobWorkers.ts
lines 463-472); this method sets no base `delay` key. -/
def userJobOptions (o : JobOverrides) : JobOptions :=
  { delay := o.delay
    attempts := o.attempts.getD 3
    backoff := o.backoff.getD { type := "exponential", delay := 1000 }
    removeOnComplete := o.removeOnComplete.getD 20
    removeOnFail := o.removeOnFail.getD 10 }

/-- Options built by JobService.addNotificationJob (src/infrastructure/jobWorkers.ts
lines 487-496). -/
def notificationJobOptions (o : JobOverrides) : JobOptions :=
  { delay := o.delay
    attempts := o.attempts.getD 5
    backoff := o.backoff.getD { type := "exponential", delay := 1500 }
    removeOnComplete := o.removeOnComplete.getD 15
    removeOnFail := o.removeOnFail.getD 8 }

/-- Options built by JobService.addDataExportJob (src/infrastructure/jobWorkers.ts
lines 511-520). -/
def dataExportJobOptions (o : JobOverrides) : JobOptions :=
  { delay := o.delay
    attempts := o.attempts.getD 2
    backoff := o.backoff.getD { type := "exponential", delay := 5000 }
    removeOnComplete := o.removeOnComplete.getD 5
    removeOnFail := o.removeOnFail.getD 3 }

/-- Payload handed to the broker by an enqueue call (the `data` argument of
queue.add). -/
inductive JobPayload where
  | email (d : EmailJobData)
  | user (d : UserJobData)
  | notification (d : NotificationJobData)
  | dataExport (d : DataExportJobData)
deriving DecidableEq

/-- One `queue.add(name, data, opts)` call issued to the broker. -/
structure BrokerAddCall where
  queue : String
  jobName : String
  payload : JobPayload
  opts : JobOptions
deriving DecidableEq

/-- Embeds JobService.addEmailJob (src/infrastructure/jobWorkers.ts lines 436-456)
as the list of broker add calls the method issues.  The body calls
queues.emailQueue.add(data.type, data, mergedOptions) unconditionally: there is no
runtime check of data.type before the broker call. -/
def addEmailJob (data : EmailJobData) (o : JobOverrides) : List BrokerAddCall :=
  [{ queue := JOB_QUEUES.EMAIL, jobName := data.type, payload := .email data
     opts := emailJobOptions o }]

/-- Embeds JobService.addUserJob (src/infrastructure/jobWorkers.ts lines 461-480). -/
def addUserJob (data : UserJobData) (o : JobOverrides) : List BrokerAddCall :=
  [{ queue := JOB_QUEUES.USER_PROCESSING, jobName := data.type, payload := .user data
     opts := userJobOptions o }]

/-- Embeds JobService.addNotificationJob (src/infrastructure/jobWorkers.ts
lines 485-504). -/
def addNotificationJob (data : NotificationJobData) (o : JobOverrides) :
    List BrokerAddCall :=
  [{ queue := JOB_QUEUES.NOTIFICATIONS, jobName := data.type
     payload := .notification data, opts := notificationJobOptions o }]

/-- Embeds JobService.addDataExportJob (src/infrastructure/jobWorkers.ts
lines 509-528). -/
def addDataExportJob (data : DataExportJobData) (o : JobOverrides) :
    List BrokerAddCall :=
  [{ queue := JOB_QUEUES.DATA_EXPORT, jobName := data.type
     payload := .dataExport data, opts := dataExportJobOptions o }]

/- Worker configuration, from the `workers` object in
   src/infrastructure/jobWorkers.ts lines 225-265. -/

structure WorkerConfig where
  queueName : String
  concurrency : Nat
  limiterMax : Nat
  limiterDuration : Nat
deriving DecidableEq

/-- Configuration of workers.emailWorker. -/
def emailWorker : WorkerConfig :=
  { queueName := JOB_QUEUES.EMAIL, concurrency := 5
    limiterMax := 10, limiterDuration := 60000 }

/-- Configuration of workers.userProcessingWorker. -/
def userProcessingWorker : WorkerConfig :=
  { queueName := JOB_QUEUES.USER_PROCESSING, concurrency := 3
    limiterMax := 20, limiterDuration := 60000 }

/-- Configuration of workers.notificationsWorker. -/
def notificationsWorker : WorkerConfig :=
  { queueName := JOB_QUEUES.NOTIFICATIONS, concurrency := 8
    limiterMax := 50, limiterDuration := 60000 }

/-- Configuration of workers.dataExportWorker. -/
def dataExportWorker : WorkerConfig :=
  { queueName := JOB_QUEUES.DATA_EXPORT, concurrency := 2
    limiterMax := 5, limiterDuration := 60000 }

/-- The four worker configurations declared by the source. -/
def sourceWorkerConfigs : List WorkerConfig :=
  [emailWorker, userProcessingWorker, notificationsWorker, dataExportWorker]

/- Scheduler model for concurrency ceilings and rate limiting.  The enforcement
   loop itself lives in the external BullMQ library, not in this repository; only
   the per-queue configuration values above come from the source. -/

/-- State of one queue's worker from the scheduling point of view: the number of
currently running jobs and the log of job start times (epoch milliseconds). -/
structure SchedState where
  activeJobs : Nat
  startLog : List Nat
deriving DecidableEq

/-- Scheduling events: a job start attempted at time t, or a running job finishing. -/
inductive SchedEvent where
  | start (t : Nat)
  | finish
deriving DecidableEq

/-- Number of logged job starts still inside the rate-limit window ending at time t
(starts s with t < s + duration, i.e. less than `duration` ms old). -/
def recentStarts (st : SchedState) (duration t : Nat) : Nat :=
  st.startLog.countP (fun s => decide (t < s + duration))

/-- Modelled from the spec: BullMQ's worker scheduling (external to this
repository).  A start attempt at time t is admitted only when fewer than
`concurrency` jobs are running and fewer than `limiterMax` starts happened in the
trailing `limiterDuration` window; otherwise the job stays waiting (spec section
4.2).  A finish releases one running slot. -/
def schedStep (cfg : WorkerConfig) (st : SchedState) (e : SchedEvent) : SchedState :=
  match e with
  | .start t =>
      if st.activeJobs < cfg.concurrency ∧
          recentStarts st cfg.limiterDuration t < cfg.limiterMax then
        { activeJobs := st.activeJobs + 1, startLog := t :: st.startLog }
      else st
  | .finish => { activeJobs := st.activeJobs - 1, startLog := st.startLog }

/-- Runs the scheduler from the idle state over a list of events. -/
def schedRun (cfg : WorkerConfig) (events : List SchedEvent) : SchedState :=
  events.foldl (schedStep cfg) { activeJobs := 0, startLog := [] }

/-- Number of logged starts inside the half-open window (w, w + duration]. -/
def windowStarts (log : List Nat) (duration w : Nat) : Nat :=
  log.countP (fun s => decide (w < s) && decide (s ≤ w + duration))

/- Retention cleanup, from JobService.cleanupQueues in
   src/infrastructure/jobWorkers.ts lines 565-585. -/

/-- A finished job retained by the broker: status is "completed" or "failed" and
finishedOn is its finish time in epoch milliseconds. -/
structure StoredJob where
  id : Nat
  status : String
  finishedOn : Nat
deriving DecidableEq

/-- Modelled from the spec: the broker's queue.clean(grace, limit, status) operation
(BullMQ, external to this repository) removes at most `limit` jobs of the given
status whose finish time is at least `grace` milliseconds in the past, and returns
the removed jobs (spec sections 4.1 and 8). -/
def cleanJobs (now grace limit : Nat) (status : String) (jobs : List StoredJob) :
    List StoredJob :=
  (jobs.filter (fun j => j.status == status && decide (j.finishedOn + grace ≤ now))).take limit

/-- The queues iterated by JobService.cleanupQueues (Object.entries(queues)). -/
def queueNames : List String :=
  [JOB_QUEUES.EMAIL, JOB_QUEUES.USER_PROCESSING, JOB_QUEUES.NOTIFICATIONS,
   JOB_QUEUES.DATA_EXPORT]

/-- Per-queue result of one cleanup pass. -/
structure CleanupResult where
  queue : String
  cleanedCompleted : List StoredJob
  cleanedFailed : List StoredJob
deriving DecidableEq

/-- Embeds JobService.cleanupQueues (src/infrastructure/jobWorkers.ts lines 565-585):
for every queue it calls queue.clean(24*60*60*1000, 50, 'completed') and
queue.clean(7*24*60*60*1000, 20, 'failed').  `jobsOf` gives the retained finished
jobs of each queue at the time of the pass. -/
def cleanupQueues (now : Nat) (jobsOf : String → List StoredJob) : List CleanupResult :=
  queueNames.map (fun q =>
    { queue := q
      cleanedCompleted := cleanJobs now (24 * 60 * 60 * 1000) 50 "completed" (jobsOf q)
      cleanedFailed := cleanJobs now (7 * 24 * 60 * 60 * 1000) 20 "failed" (jobsOf q) })

/- Subscription topic constants, from SUBSCRIPTION_TOPICS in
   src/infrastructure/pubsub.ts. -/

namespace SUBSCRIPTION_TOPICS

def USER_CREATED : String := "USER_CREATED"

def USER_UPDATED : String := "USER_UPDATED"

def USER_DELETED : String := "USER_DELETED"

def USER_ONLINE : String := "USER_ONLINE"

end SUBSCRIPTION_TOPICS

/-- A user entity as seen by the event publisher (the source types it `any`; the
claims only touch the id and email fields). -/
structure UserRec where
  id : String
  email : String
deriving DecidableEq

/-- Payload published under the `userUpdated` field by publishUserUpdated. -/
structure UserUpdatedPayload where
  user : UserRec
  previousValues : Option UserRec
  timestamp : String
deriving DecidableEq

/-- Payload published under the `userDeleted` field by publishUserDeleted. -/
structure UserDeletedPayload where
  id : String
  email : String
  timestamp : String
deriving DecidableEq

/-- The record published on a topic, wrapped under a field named after the topic
(src/infrastructure/pubsub.ts, UserEventPublisher). -/
inductive TopicMessage where
  | userCreated (user : UserRec) (timestamp : String)
  | userUpdated (p : UserUpdatedPayload)
  | userDeleted (p : UserDeletedPayload)
  | userOnline (user : UserRec) (isOnline : Bool) (timestamp : String)
deriving DecidableEq

/-- Observable outcome of one UserEventPublisher publish method: the envelope handed
to the broker when the publish succeeded, whether the catch branch logged an error,
and the error propagated to the caller, if any. -/
structure PublishResult where
  published : Option (String × TopicMessage)
  loggedError : Bool
  thrown : Option String
deriving DecidableEq

/-- Embeds UserEventPublisher.publishUserCreated (src/infrastructure/pubsub.ts
lines 174-186).  `nowIso` is new Date().toISOString() at publish time; `brokerError`
is the error pubSub.publish raised, if any.  The try/catch logs a broker error and
returns normally, so nothing is ever thrown to the caller. -/
def publishUserCreated (user : UserRec) (nowIso : String)
    (brokerError : Option String) : PublishResult :=
  match brokerError with
  | none =>
      { published := some (SUBSCRIPTION_TOPICS.USER_CREATED, .userCreated user nowIso)
        loggedError := false, thrown := none }
  | some _ => { published := none, loggedError := true, thrown := none }

/-- Embeds UserEventPublisher.publishUserUpdated (src/infrastructure/pubsub.ts
lines 188-201). -/
def publishUserUpdated (user : UserRec) (previousValues : Option UserRec)
    (nowIso : String) (brokerError : Option String) : PublishResult :=
  match brokerError with
  | none =>
      { published := some (SUBSCRIPTION_TOPICS.USER_UPDATED,
          .userUpdated { user := user, previousValues := previousValues
                         timestamp := nowIso })
        loggedError := false, thrown := none }
  | some _ => { published := none, loggedError := true, thrown := none }

/-- Embeds UserEventPublisher.publishUserDeleted (src/infrastructure/pubsub.ts
lines 203-216): publishes the record with the userDeleted field holding the id, the
email and the publish-time timestamp. -/
def publishUserDeleted (user : UserRec) (nowIso : String)
    (brokerError : Option String) : PublishResult :=
  match brokerError with
  | none =>
      { published := some (SUBSCRIPTION_TOPICS.USER_DELETED,
          .userDeleted { id := user.id, email := user.email, timestamp := nowIso })
        loggedError := false, thrown := none }
  | some _ => { published := none, loggedError := true, thrown := none }

/-- Embeds UserEventPublisher.publishUserOnline (src/infrastructure/pubsub.ts
lines 218-231). -/
def publishUserOnline (user : UserRec) (isOnline : Bool) (nowIso : String)
    (brokerError : Option String) : PublishResult :=
  match brokerError with
  | none =>
      { published := some (SUBSCRIPTION_TOPICS.USER_ONLINE,
          .userOnline user isOnline nowIso)
        loggedError := false, thrown := none }
  | some _ => { published := none, loggedError := true, thrown := none }

/-- JS truthiness of an optional string value: an absent value and the empty string
are falsy, every other string is truthy. -/
def truthyStr : Option String → Bool
  | none => false
  | some s => s != ""

/-- One live subscription: its broker topic and its per-subscriber acceptance
predicate (withFilter in the source; constantly true when no filter is given). -/
structure Subscription where
  topic : String
  accept : TopicMessage → Bool

/-- Modelled from the spec: the broker delivers a published envelope to one open
subscription exactly once when the topic matches and the subscription's filter
accepts the envelope, and not at all otherwise (spec sections 4.4 and 8; the
delivery loop lives in the external graphql-redis-subscriptions and
graphql-subscriptions libraries). -/
def deliveredTo (sub : Subscription) (topic : String) (msg : TopicMessage) :
    List TopicMessage :=
  if sub.topic == topic && sub.accept msg then [msg] else []

/-- Subscription variables of the userUpdated / userOnline subscriptions; an absent
userId argument is `none`. -/
structure SubVariables where
  userId : Option String := none
deriving DecidableEq

/-- Embeds the withFilter predicate of Subscription.userUpdated
(src/graphql/resolvers, subscription resolvers, lines 39-45).  The JS body is
`if (variables.userId) return payload.userUpdated.user.id === variables.userId;
return true;` — an absent userId and the empty string are both falsy, so both fall
through to the unconditional true branch. -/
def userUpdatedFilter (p : UserUpdatedPayload) (vars : SubVariables) : Bool :=
  if truthyStr vars.userId then p.user.id == vars.userId.getD "" else true

/-- The subscription opened by the userUpdated resolver for given variables. -/
def userUpdatedSubscribe (vars : SubVariables) : Subscription :=
  { topic := SUBSCRIPTION_TOPICS.USER_UPDATED
    accept := fun m =>
      match m with
      | .userUpdated p => userUpdatedFilter p vars
      | _ => false }

/-- The subscription opened by the userDeleted resolver (lines 52-57): a plain
asyncIterator on the USER_DELETED topic with no filter, so every envelope on the
topic is accepted. -/
def userDeletedSubscribe : Subscription :=
  { topic := SUBSCRIPTION_TOPICS.USER_DELETED, accept := fun _ => true }

/- WebSocket connection handshake, from subscriptionHandlers.onConnect in the
   subscription resolvers file (lines 88-107). -/

/-- Connection parameters of a new transport session; each field is the value of
the corresponding key when present. -/
structure ConnectionParams where
  Authorization : Option String := none
  authorization : Option String := none
deriving DecidableEq

/-- The authentication result onConnect attaches to the session. -/
structure AuthResult where
  isAuthenticated : Bool
  token : Option String := none
deriving DecidableEq

/-- JS `a || b` on two optional strings: the left value when truthy, otherwise the
right value. -/
def jsOrStr (a b : Option String) : Option String :=
  if truthyStr a then a else b

/-- The token extraction in onConnect:
`connectionParams?.Authorization || connectionParams?.authorization`. -/
def extractToken (params : Option ConnectionParams) : Option String :=
  jsOrStr (params.bind ConnectionParams.Authorization)
    (params.bind ConnectionParams.authorization)

/-- Embeds subscriptionHandlers.onConnect (lines 88-107).  When the extracted token
is truthy the try block returns isAuthenticated true with the token and cannot
throw (the catch branch is unreachable — no verification of the token is ever
performed); otherwise the handler returns isAuthenticated false.  An `error` result
would model a rejected connection. -/
def onConnect (params : Option ConnectionParams) : Except String AuthResult :=
  let token := extractToken params
  if truthyStr token then .ok { isAuthenticated := true, token := token }
  else .ok { isAuthenticated := false, token := none }

/- Email worker handler, from processEmailJob in src/infrastructure/jobWorkers.ts
   lines 14-45. -/

/-- The value returned by a successful processEmailJob run. -/
structure EmailJobResult where
  success : Bool
  sentAt : String
deriving DecidableEq

/-- Decidable equality on Except values, used to evaluate handler outcomes on
concrete inputs. -/
instance {ε α : Type} [DecidableEq ε] [DecidableEq α] : DecidableEq (Except ε α) :=
  fun x y =>
    match x, y with
    | .ok a, .ok b =>
        if h : a = b then isTrue (by rw [h])
        else isFalse (by intro he; cases he; exact h rfl)
    | .error a, .error b =>
        if h : a = b then isTrue (by rw [h])
        else isFalse (by intro he; cases he; exact h rfl)
    | .ok _, .error _ => isFalse (by intro he; cases he)
    | .error _, .ok _ => isFalse (by intro he; cases he)

/-- Observable outcome of one processEmailJob run: whether the default switch
branch logged the unknown-type warning, the final reported progress, and the
handler result (`error` would model a thrown exception). -/
structure EmailJobOutcome where
  warnedUnknownType : Bool
  progress : Nat
  result : Except String EmailJobResult
deriving DecidableEq

/-- Embeds processEmailJob (src/infrastructure/jobWorkers.ts lines 14-45).  The
switch on job.data.type logs per known tag and logs a warning in the default
branch; afterwards the handler unconditionally sets progress to 100 and returns
success with a sentAt timestamp — no branch throws. -/
def processEmailJob (data : EmailJobData) (nowIso : String) : EmailJobOutcome :=
  { warnedUnknownType :=
      if data.type == JOB_TYPES.SEND_WELCOME_EMAIL then false
      else if data.type == JOB_TYPES.SEND_PASSWORD_RESET then false
      else true
    progress := 100
    result := .ok { success := true, sentAt := nowIso } }

/-- Modelled from the spec: the broker marks a job completed when its handler
returns a value and failed when the handler throws (spec section 4.2 worker state
machine; the status bookkeeping lives in the external BullMQ library). -/
def jobFinalStatus {α : Type} (r : Except String α) : String :=
  match r with
  | .ok _ => "completed"
  | .error _ => "failed"

/- Bootstrap of the job subsystem, from server.ts lines 54-61 and startJobWorkers
   in src/infrastructure/jobWorkers.ts lines 270-314. -/

/-- Embeds startJobWorkers: the try block attaches event listeners to every worker;
an error raised while starting is caught, logged and rethrown, so it propagates to
the caller.  `startupError` stands for the error raised inside the try block, if
any. -/
def startJobWorkers (startupError : Option String) : Except String Unit :=
  match startupError with
  | none => .ok ()
  | some e => .error e

/-- Observable outcome of the job-subsystem section of bootstrap. -/
structure BootstrapJobOutcome where
  continuedStartup : Bool
  workersRunning : Bool
  warnedDegraded : Bool
deriving DecidableEq

/-- Embeds the job-queue initialization block of bootstrap (server.ts lines 54-61):
`try { await initializeJobQueues(); await startJobWorkers(); } catch (error) {
logger.warn(error, 'Job queue initialization failed, background jobs may not
work'); }`.  Every path returns normally: a failure of either call is caught,
logged as a warning, and startup continues without running workers. -/
def bootstrapJobInit (initQueues : Except String Unit)
    (startWorkers : Except String Unit) : BootstrapJobOutcome :=
  match initQueues with
  | .error _ =>
      { continuedStartup := true, workersRunning := false, warnedDegraded := true }
  | .ok _ =>
      match startWorkers with
      | .error _ =>
          { continuedStartup := true, workersRunning := false, warnedDegraded := true }
      | .ok _ =>
          { continuedStartup := true, workersRunning := true, warnedDegraded := false }

/- Helper lemmas. -/

/-- One scheduler step keeps the running-job count at or below the concurrency
ceiling and the start count of every rate-limit window at or below the limiter
maximum. -/
theorem schedStep_bounds (cfg : WorkerConfig) (st : SchedState) (e : SchedEvent)
    (hA : st.activeJobs ≤ cfg.concurrency)
    (hW : ∀ w, windowStarts st.startLog cfg.limiterDuration w ≤ cfg.limiterMax) :
    (schedStep cfg st e).activeJobs ≤ cfg.concurrency ∧
    ∀ w, windowStarts (schedStep cfg st e).startLog cfg.limiterDuration w ≤
      cfg.limiterMax := by
  cases e with
  | finish =>
      exact ⟨Nat.le_trans (Nat.sub_le _ _) hA, hW⟩
  | start t =>
      simp only [schedStep]
      split
      case isTrue h =>
        obtain ⟨hc1, hc2⟩ := h
        refine ⟨hc1, fun w => ?_⟩
        unfold windowStarts
        rw [List.countP_cons]
        by_cases ht : (decide (w < t) && decide (t ≤ w + cfg.limiterDuration)) = true
        · rw [if_pos ht]
          have hsub : st.startLog.countP
              (fun s => decide (w < s) && decide (s ≤ w + cfg.limiterDuration)) ≤
              st.startLog.countP (fun s => decide (t < s + cfg.limiterDuration)) := by
            apply List.countP_mono_left
            intro s _ hs
            simp only [Bool.and_eq_true, decide_eq_true_eq] at hs ht ⊢
            omega
          unfold recentStarts at hc2
          omega
        · rw [if_neg ht]
          have := hW w
          unfold windowStarts at this
          omega
      case isFalse h =>
        exact ⟨hA, hW⟩

/-- Every state reached by running the scheduler from idle keeps at most
`concurrency` running jobs and at most `limiterMax` starts in every window of
length `limiterDuration`. -/
theorem schedRun_bounds (cfg : WorkerConfig) (events : List SchedEvent) :
    (schedRun cfg events).activeJobs ≤ cfg.concurrency ∧
    ∀ w, windowStarts (schedRun cfg events).startLog cfg.limiterDuration w ≤
      cfg.limiterMax := by
  suffices h : ∀ st : SchedState, st.activeJobs ≤ cfg.concurrency →
      (∀ w, windowStarts st.startLog cfg.limiterDuration w ≤ cfg.limiterMax) →
      (events.foldl (schedStep cfg) st).activeJobs ≤ cfg.concurrency ∧
      ∀ w, windowStarts (events.foldl (schedStep cfg) st).startLog
        cfg.limiterDuration w ≤ cfg.limiterMax by
    exact h { activeJobs := 0, startLog := [] } (Nat.zero_le _)
      (fun w => by simp [windowStarts])
  induction events with
  | nil => exact fun st h1 h2 => ⟨h1, h2⟩
  | cons e es ih =>
      intro st h1 h2
      simp only [List.foldl_cons]
      have hs := schedStep_bounds cfg st e h1 h2
      exact ih _ hs.1 hs.2

/-- Jobs removed by a clean call all carry the requested status and are at least
`grace` milliseconds old, and no more than `limit` of them are removed. -/
theorem cleanJobs_spec (now grace limit : Nat) (status : String)
    (jobs : List StoredJob) :
    (∀ j ∈ cleanJobs now grace limit status jobs,
        j.status = status ∧ j.finishedOn + grace ≤ now) ∧
    (cleanJobs now grace limit status jobs).length ≤ limit := by
  constructor
  · intro j hj
    have hj' := List.take_subset _ _ hj
    have hmem := (List.mem_filter.mp hj').2
    simp only [Bool.and_eq_true, beq_iff_eq, decide_eq_true_eq] at hmem
    exact hmem
  · exact List.length_take_le _ _

/- Claim theorems. -/

/-- Claim C1, counterexample: JobService.addEmailJob, given job data whose type tag
"export-user-data" lies outside the email family's allowed tags, still issues a
broker add call — the input is not rejected before the broker call, so the claim as
stated is false. -/
theorem claim_C1_counterexample :
    JOB_TYPES.EXPORT_USER_DATA ∉ emailAllowedTypes ∧
    addEmailJob
      { type := JOB_TYPES.EXPORT_USER_DATA
        «to» := "a@x.com"
        subject := "Hello"
        template := "welcome"
        «variables» := [] } {} ≠ [] := by
  constructor
  · decide
  · decide

/-- Claim C1, amended: the family enqueue operations perform no runtime check of
the type tag at all — every input, also one whose tag is outside the owning
family's allowed tags, results in exactly one broker add call (the tag restriction
exists only in the static TypeScript types). -/
theorem claim_C1_amended (d1 : EmailJobData) (d2 : UserJobData)
    (d3 : NotificationJobData) (d4 : DataExportJobData) (o : JobOverrides) :
    (addEmailJob d1 o).length = 1 ∧ (addUserJob d2 o).length = 1 ∧
    (addNotificationJob d3 o).length = 1 ∧ (addDataExportJob d4 o).length = 1 :=
  ⟨rfl, rfl, rfl, rfl⟩

/-- Claim C2, counterexample: when startJobWorkers fails at startup (for example
the broker is unreachable), the error it rethrows is caught by bootstrap's
try/catch, which logs a warning and continues startup with the workers missing —
the error does not propagate out of bootstrap, so the claim as stated is false. -/
theorem claim_C2_counterexample :
    startJobWorkers (some "connect ECONNREFUSED 127.0.0.1:6379") =
      .error "connect ECONNREFUSED 127.0.0.1:6379" ∧
    (bootstrapJobInit (.ok ())
        (startJobWorkers (some "connect ECONNREFUSED 127.0.0.1:6379"))).continuedStartup
      = true ∧
    (bootstrapJobInit (.ok ())
        (startJobWorkers (some "connect ECONNREFUSED 127.0.0.1:6379"))).workersRunning
      = false :=
  ⟨rfl, rfl, rfl⟩

/-- Claim C2, amended: startJobWorkers propagates a worker startup error to its
caller, but bootstrap catches it, logs a degraded-mode warning, and continues
startup without running workers; a worker startup failure never aborts the
process. -/
theorem claim_C2_amended (e : String) :
    startJobWorkers (some e) = .error e ∧
    bootstrapJobInit (.ok ()) (.error e) =
      { continuedStartup := true, workersRunning := false, warnedDegraded := true } :=
  ⟨rfl, rfl⟩

/-- Claim C3: every UserEventPublisher publish method catches a broker error raised
during the publish, logs it, and returns normally — nothing is ever thrown to the
triggering mutation, on the failure path or on the success path. -/
theorem claim_C3_publish_failures_never_propagate (u : UserRec)
    (prev : Option UserRec) (b : Bool) (nowIso e : String) :
    (publishUserCreated u nowIso (some e)).thrown = none ∧
    (publishUserCreated u nowIso (some e)).loggedError = true ∧
    (publishUserUpdated u prev nowIso (some e)).thrown = none ∧
    (publishUserUpdated u prev nowIso (some e)).loggedError = true ∧
    (publishUserDeleted u nowIso (some e)).thrown = none ∧
    (publishUserDeleted u nowIso (some e)).loggedError = true ∧
    (publishUserOnline u b nowIso (some e)).thrown = none ∧
    (publishUserOnline u b nowIso (some e)).loggedError = true ∧
    (publishUserCreated u nowIso none).thrown = none ∧
    (publishUserUpdated u prev nowIso none).thrown = none ∧
    (publishUserDeleted u nowIso none).thrown = none ∧
    (publishUserOnline u b nowIso none).thrown = none :=
  ⟨rfl, rfl, rfl, rfl, rfl, rfl, rfl, rfl, rfl, rfl, rfl, rfl⟩

/-- Claim C4, counterexample: a userUpdated subscription opened with the userId
argument provided as the empty string (a present but falsy value) yields an
envelope whose payload user id "42" differs from the provided value, because the
filter's truthiness test skips the id comparison — the claim as stated is false. -/
theorem claim_C4_counterexample :
    truthyStr (some "") = false ∧
    deliveredTo (userUpdatedSubscribe { userId := some "" })
        SUBSCRIPTION_TOPICS.USER_UPDATED
        (.userUpdated
          { user := { id := "42", email := "b@x.com" }
            previousValues := none
            timestamp := "2026-01-01T00:00:00.000Z" }) =
      [.userUpdated
          { user := { id := "42", email := "b@x.com" }
            previousValues := none
            timestamp := "2026-01-01T00:00:00.000Z" }] ∧
    ("42" : String) ≠ "" := by
  refine ⟨rfl, ?_, by decide⟩
  decide

/-- Claim C4, amended: for every subscription opened as
subscribe(USER_UPDATED, userId X) with X provided and non-empty, an envelope is
yielded only when its payload user id equals X, regardless of what else is
published on the topic. -/
theorem claim_C4_amended (X : String) (hX : X ≠ "") (p : UserUpdatedPayload) :
    deliveredTo (userUpdatedSubscribe { userId := some X })
        SUBSCRIPTION_TOPICS.USER_UPDATED (.userUpdated p) ≠ [] →
    p.user.id = X := by
  intro h
  by_cases hid : p.user.id = X
  · exact hid
  · exfalso
    apply h
    simp [deliveredTo, userUpdatedSubscribe, userUpdatedFilter, truthyStr, hX, hid]

/-- Witness for claim C4's amended theorem at a concrete matching envelope. -/
theorem claim_C4_witness :
    ("42" : String) ≠ "" ∧
    ({ user := { id := "42", email := "b@x.com" }
       previousValues := none
       timestamp := "ts" } : UserUpdatedPayload).user.id = "42" :=
  ⟨by decide, claim_C4_amended "42" (by decide)
    { user := { id := "42", email := "b@x.com" }
      previousValues := none
      timestamp := "ts" } (by decide)⟩

/-- Claim C5: for every worker configuration declared by the source, the scheduler
never runs more than `concurrency` jobs simultaneously and never admits more than
`limiterMax` job starts inside any window of length `limiterDuration`; in
particular the data-export worker is configured with concurrency 2 and at most 5
starts per 60000 ms. -/
theorem claim_C5_concurrency_and_rate_limit (cfg : WorkerConfig)
    (hcfg : cfg ∈ sourceWorkerConfigs) (events : List SchedEvent) :
    (schedRun cfg events).activeJobs ≤ cfg.concurrency ∧
    (∀ w, windowStarts (schedRun cfg events).startLog cfg.limiterDuration w ≤
      cfg.limiterMax) ∧
    dataExportWorker.concurrency = 2 ∧ dataExportWorker.limiterMax = 5 ∧
    dataExportWorker.limiterDuration = 60000 := by
  obtain ⟨h1, h2⟩ := schedRun_bounds cfg events
  exact ⟨h1, h2, rfl, rfl, rfl⟩

/-- Witness for claim C5 on the data-export worker and a concrete event trace that
attempts three starts with ceiling two. -/
theorem claim_C5_witness :
    dataExportWorker ∈ sourceWorkerConfigs ∧
    (schedRun dataExportWorker
      [.start 0, .start 1, .start 2, .finish, .start 3]).activeJobs ≤
      dataExportWorker.concurrency ∧
    windowStarts (schedRun dataExportWorker
      [.start 0, .start 1, .start 2, .finish, .start 3]).startLog
      dataExportWorker.limiterDuration 0 ≤ dataExportWorker.limiterMax ∧
    dataExportWorker.concurrency = 2 := by
  have h := claim_C5_concurrency_and_rate_limit dataExportWorker (by decide)
    [.start 0, .start 1, .start 2, .finish, .start 3]
  exact ⟨by decide, h.1, h.2.1 0, h.2.2.1⟩

/-- Claim C6: with no caller-supplied attempts override the enqueue defaults are 3
attempts for email jobs, 3 for user-lifecycle jobs, 5 for notification jobs and 2
for data-export jobs, each with an exponential backoff policy (base delays 2000,
1000, 1500 and 5000 ms); a caller-supplied attempts override replaces the default
in every family. -/
theorem claim_C6_default_attempts_and_overrides (o : JobOverrides) :
    (o.attempts = none →
      (emailJobOptions o).attempts = 3 ∧ (userJobOptions o).attempts = 3 ∧
      (notificationJobOptions o).attempts = 5 ∧
      (dataExportJobOptions o).attempts = 2) ∧
    (o.backoff = none →
      (emailJobOptions o).backoff = { type := "exponential", delay := 2000 } ∧
      (userJobOptions o).backoff = { type := "exponential", delay := 1000 } ∧
      (notificationJobOptions o).backoff = { type := "exponential", delay := 1500 } ∧
      (dataExportJobOptions o).backoff = { type := "exponential", delay := 5000 }) ∧
    (∀ a, o.attempts = some a →
      (emailJobOptions o).attempts = a ∧ (userJobOptions o).attempts = a ∧
      (notificationJobOptions o).attempts = a ∧
      (dataExportJobOptions o).attempts = a) := by
  refine ⟨fun h => ?_, fun h => ?_, fun a h => ?_⟩ <;>
    simp [emailJobOptions, userJobOptions, notificationJobOptions,
      dataExportJobOptions, h]

/-- Witness for claim C6 with no overrides and with attempts overridden to 7. -/
theorem claim_C6_witness :
    (emailJobOptions {}).attempts = 3 ∧ (userJobOptions {}).attempts = 3 ∧
    (notificationJobOptions {}).attempts = 5 ∧
    (dataExportJobOptions {}).attempts = 2 ∧
    (emailJobOptions { attempts := some 7 }).attempts = 7 := by
  have h1 := (claim_C6_default_attempts_and_overrides {}).1 rfl
  have h2 := (claim_C6_default_attempts_and_overrides { attempts := some 7 }).2.2 7 rfl
  exact ⟨h1.1, h1.2.1, h1.2.2.1, h1.2.2.2, h2.1⟩

/-- Claim C7: one cleanup pass removes, per queue, only completed jobs at least one
day old (at most 50 of them) and only failed jobs at least seven days old (at most
20 of them); in particular no completed job younger than its one-day max-age is
ever removed. -/
theorem claim_C7_cleanup_bounds (now : Nat) (jobsOf : String → List StoredJob)
    (r : CleanupResult) (hr : r ∈ cleanupQueues now jobsOf) :
    (∀ j ∈ r.cleanedCompleted,
        j.status = "completed" ∧ j.finishedOn + 24 * 60 * 60 * 1000 ≤ now) ∧
    r.cleanedCompleted.length ≤ 50 ∧
    (∀ j ∈ r.cleanedFailed,
        j.status = "failed" ∧ j.finishedOn + 7 * 24 * 60 * 60 * 1000 ≤ now) ∧
    r.cleanedFailed.length ≤ 20 := by
  obtain ⟨q, hq, rfl⟩ := List.mem_map.mp hr
  have h1 := cleanJobs_spec now (24 * 60 * 60 * 1000) 50 "completed" (jobsOf q)
  have h2 := cleanJobs_spec now (7 * 24 * 60 * 60 * 1000) 20 "failed" (jobsOf q)
  exact ⟨h1.1, h1.2, h2.1, h2.2⟩

/-- Witness for claim C7 on a one-job queue exactly one day after the job
finished. -/
theorem claim_C7_witness :
    ((⟨JOB_QUEUES.EMAIL, [⟨1, "completed", 0⟩], []⟩ : CleanupResult).cleanedCompleted.length ≤ 50) ∧
    ((⟨1, "completed", 0⟩ : StoredJob).status = "completed" ∧
      (⟨1, "completed", 0⟩ : StoredJob).finishedOn + 24 * 60 * 60 * 1000 ≤ 86400000) := by
  have h := claim_C7_cleanup_bounds 86400000 (fun _ => [⟨1, "completed", 0⟩])
    ⟨JOB_QUEUES.EMAIL, [⟨1, "completed", 0⟩], []⟩ (by decide)
  exact ⟨h.2.1, h.1 ⟨1, "completed", 0⟩ (by decide)⟩

/-- Claim C8: publishUserDeleted publishes on the USER_DELETED topic exactly the
envelope wrapping the id, the email and the publish-time timestamp under the
userDeleted field, and an open userDeleted subscription (which applies no filter)
receives that envelope exactly once. -/
theorem claim_C8_user_deleted_roundtrip (id email nowIso : String) :
    (publishUserDeleted { id := id, email := email } nowIso none).published =
      some (SUBSCRIPTION_TOPICS.USER_DELETED,
        .userDeleted { id := id, email := email, timestamp := nowIso }) ∧
    (publishUserDeleted { id := id, email := email } nowIso none).thrown = none ∧
    deliveredTo userDeletedSubscribe SUBSCRIPTION_TOPICS.USER_DELETED
        (.userDeleted { id := id, email := email, timestamp := nowIso }) =
      [.userDeleted { id := id, email := email, timestamp := nowIso }] ∧
    (deliveredTo userDeletedSubscribe SUBSCRIPTION_TOPICS.USER_DELETED
        (.userDeleted { id := id, email := email, timestamp := nowIso })).length = 1 := by
  refine ⟨rfl, rfl, ?_, ?_⟩ <;> simp [deliveredTo, userDeletedSubscribe]

/-- Claim C9, counterexample: a connection whose parameters carry a present bearer
token with the empty-string value is answered with isAuthenticated false, because
onConnect tests JS truthiness rather than mere presence — the claim's "any present
token yields isAuthenticated true" is false as stated. -/
theorem claim_C9_counterexample :
    (some { Authorization := some "", authorization := none } :
        Option ConnectionParams).bind ConnectionParams.Authorization = some "" ∧
    onConnect (some { Authorization := some "", authorization := none }) =
      .ok { isAuthenticated := false, token := none } :=
  ⟨rfl, rfl⟩

/-- Claim C9, amended: onConnect never rejects a connection (it always returns an
authentication result); with no extracted token it returns isAuthenticated false,
and with any present non-empty (truthy) token it returns isAuthenticated true
carrying that token, without any verification of the token beyond the truthiness
test. -/
theorem claim_C9_amended (params : Option ConnectionParams) (t : String) :
    (onConnect params).isOk = true ∧
    (extractToken params = none →
      onConnect params = .ok { isAuthenticated := false, token := none }) ∧
    (t ≠ "" → extractToken params = some t →
      onConnect params = .ok { isAuthenticated := true, token := some t }) := by
  refine ⟨?_, fun h => ?_, fun ht h => ?_⟩
  · by_cases hb : truthyStr (extractToken params) = true <;>
      simp [onConnect, hb, Except.isOk, Except.toBool]
  · simp [onConnect, h, truthyStr]
  · simp [onConnect, h, truthyStr, ht]

/-- Witness for claim C9's amended theorem: no parameters, and a concrete non-empty
bearer token. -/
theorem claim_C9_witness :
    (onConnect (some { Authorization := some "Bearer abc", authorization := none })).isOk
      = true ∧
    onConnect none = .ok { isAuthenticated := false, token := none } ∧
    onConnect (some { Authorization := some "Bearer abc", authorization := none }) =
      .ok { isAuthenticated := true, token := some "Bearer abc" } := by
  have h := claim_C9_amended
    (some { Authorization := some "Bearer abc", authorization := none }) "Bearer abc"
  have h0 := claim_C9_amended none "x"
  exact ⟨h.1, h0.2.1 rfl, h.2.2 (by decide) (by decide)⟩

/-- Claim C10: an email job whose type tag is neither send-welcome-email nor
send-password-reset makes the handler log the unknown-type warning, set progress to
100 and return success with a sentAt timestamp instead of throwing, so the job ends
completed rather than failed. -/
theorem claim_C10_unknown_email_type_completes (d : EmailJobData) (nowIso : String)
    (h1 : d.type ≠ JOB_TYPES.SEND_WELCOME_EMAIL)
    (h2 : d.type ≠ JOB_TYPES.SEND_PASSWORD_RESET) :
    (processEmailJob d nowIso).warnedUnknownType = true ∧
    (processEmailJob d nowIso).progress = 100 ∧
    (processEmailJob d nowIso).result = .ok { success := true, sentAt := nowIso } ∧
    jobFinalStatus (processEmailJob d nowIso).result = "completed" := by
  refine ⟨?_, rfl, rfl, rfl⟩
  have h1' : d.type ≠ "send-welcome-email" := h1
  have h2' : d.type ≠ "send-password-reset" := h2
  simp [processEmailJob, JOB_TYPES.SEND_WELCOME_EMAIL, JOB_TYPES.SEND_PASSWORD_RESET,
    beq_iff_eq, h1', h2']

/-- Witness for claim C10 at a concrete out-of-family email job. -/
theorem claim_C10_witness :
    (processEmailJob
      { type := "export-user-data"
        «to» := "a@x.com"
        subject := "s"
        template := "t"
        «variables» := [] } "2026-01-01T00:00:00.000Z").warnedUnknownType = true ∧
    (processEmailJob
      { type := "export-user-data"
        «to» := "a@x.com"
        subject := "s"
        template := "t"
        «variables» := [] } "2026-01-01T00:00:00.000Z").progress = 100 := by
  have h := claim_C10_unknown_email_type_completes
    { type := "export-user-data"
      «to» := "a@x.com"
      subject := "s"
      template := "t"
      «variables» := [] } "2026-01-01T00:00:00.000Z" (by decide) (by decide)
  exact ⟨h.1, h.2.1⟩

end GraphqlApi
